import Mathlib

/-!
Verification development for the AGEI call-analysis webhook (src/main.py).

The Python source is shallowly embedded: text is `List Char`, pure string
processing functions are translated directly from the source, and the
effectful pipeline (`analyze_call`, `analyze_faq`) is modelled as a function
over an oracle environment (`Env`) that fixes the outcome of every external
collaborator (HTTP download, ffmpeg, speech-to-text, the generative service,
Drive upload, Sheets API calls), producing a response together with a trace
of the external actions performed and the temporary files created/cleaned.
-/

set_option maxRecDepth 4096
set_option autoImplicit false

abbrev Str := List Char

/-! ## Python string helpers -/

/-- Whitespace as recognised by Python's `str.strip()` and the regex class
`\s` (restricted to the ASCII range; the inputs in this program are ASCII). -/
def isPySpace (c : Char) : Bool :=
  c = ' ' || c = '\t' || c = '\n' || c = '\r' || c = '\x0b' || c = '\x0c'

/-- Drop leading Python whitespace. -/
def dropLeadWS : Str → Str
  | [] => []
  | c :: t => if isPySpace c then dropLeadWS t else c :: t

/-- Embedding of Python `str.strip()`. -/
def pyStrip (s : Str) : Str :=
  dropLeadWS ((dropLeadWS s.reverse).reverse)

/-- ASCII lower-casing, the case folding relevant to `re.IGNORECASE` on the
ASCII field names used by the source. -/
def asciiLower (c : Char) : Char :=
  if 'A' ≤ c && c ≤ 'Z' then Char.ofNat (c.toNat + 32) else c

/-- Case-insensitive character comparison. -/
def charIEq (a b : Char) : Bool := asciiLower a = asciiLower b

/-- Case-insensitive prefix test: does `t` start with pattern `p`? -/
def startsWithIEq : Str → Str → Bool
  | [], _ => true
  | _ :: _, [] => false
  | p :: ps, c :: cs => charIEq p c && startsWithIEq ps cs

/-! ## Field parser for label-based modes (`parse_enhanced_analysis`)

The source builds, for each expected field name `F`, the regex
`\*\*F:\*\*\s*(.+?)(?=\*\*|\Z)` with `re.DOTALL | re.IGNORECASE` and takes
the first match via `re.search`.  The embedding below reproduces that
regex's semantics for this fixed pattern shape: `\s*` matches greedily with
backtracking, `(.+?)` matches lazily (at least one character, `.` matching
newlines under DOTALL) and stops at the first position followed by `**` or
the end of the text. -/

/-- Literal marker text for a field name: `**F:**`. -/
def markerOf (field : Str) : Str :=
  '*' :: '*' :: field ++ (':' :: '*' :: '*' :: [])

/-- Lazy capture of `(.+?)(?=\*\*|\Z)` under DOTALL: take at least one
character, stopping as soon as the remaining text starts with `**` or is
empty. -/
def lazyCap : Str → Str
  | [] => []
  | c :: t => if t.take 2 = ('*' :: '*' :: []) then [c] else c :: lazyCap t

/-- Number of leading Python-whitespace characters. -/
def wsCount : Str → Nat
  | [] => 0
  | c :: t => if isPySpace c then wsCount t + 1 else 0

/-- Capture group for `\s*(.+?)(?=\*\*|\Z)` applied to the text following a
marker.  `\s*` first consumes all leading whitespace; if that leaves nothing
for the mandatory `.+?`, the regex engine backtracks `\s*` by one character.
When the remaining text is empty, the whole match attempt fails (`none`). -/
def captureAfter (rest : Str) : Option Str :=
  match rest with
  | [] => none
  | _ :: _ => some (lazyCap (rest.drop (min (wsCount rest) (rest.length - 1))))

/-- Embedding of `re.search` for the field pattern: scan left to right for
the first position where the marker matches case-insensitively and the
remainder of the pattern can match; on failure at a position, the search
resumes one character later exactly as `re.search` does. -/
def searchField (field : Str) : Str → Option Str
  | [] => none
  | c :: t =>
      if startsWithIEq (markerOf field) (c :: t) then
        match captureAfter ((c :: t).drop (markerOf field).length) with
        | some cap => some cap
        | none => searchField field t
      else searchField field t

/-- Embedding of `re.sub(r'^\[|\]$', '', s)`: remove a leading `[` if
present and a trailing `]` if present (independently, not as a pair). -/
def bracketSub (s : Str) : Str :=
  let s1 := match s with
    | '[' :: t => t
    | other => other
  match s1.getLast? with
  | some ']' => s1.dropLast
  | _ => s1

/-- Value the extraction loop computes for one field: the captured text,
stripped, with enclosing bracket characters removed; the empty string when
the marker is not found. -/
def extractField (field text : Str) : Str :=
  match searchField field text with
  | some cap => bracketSub (pyStrip cap)
  | none => []

/-- Workflow field names, in the order of the `workflow_fields` dict. -/
def workflowKeys : List Str :=
  ["INITIAL_QUESTIONS".data, "INITIAL_RESPONSES".data, "DEMOGRAPHICS".data,
   "SCHEDULING_QUESTIONS".data, "SCHEDULING_RESPONSES".data,
   "FINAL_STEPS".data, "SUMMARY".data]

/-- Decision field names, in the order of the `decision_fields` dict. -/
def decisionKeys : List Str :=
  ["DECISION_SEQUENCE".data, "PATIENT_TYPE_DETERMINATION".data,
   "SYMPTOM_ASSESSMENT".data, "PROVIDER_SELECTION_LOGIC".data,
   "APPOINTMENT_TYPE_LOGIC".data, "ROUTING_RULES".data,
   "DECISION_BRANCHES".data]

/-- The dict `all_fields = {**workflow_fields, **decision_fields}` after the
extraction loop has run: the loop stores each field's extracted value into
this merged dict (and only into it). -/
def all_fields (text : Str) : List (Str × Str) :=
  (workflowKeys ++ decisionKeys).map (fun k => (k, extractField k text))

/-- Embedding of `parse_enhanced_analysis`.  Faithful to the source: the
extraction loop writes into the merged dict `all_fields`, which is a fresh
dict (`{**workflow_fields, **decision_fields}` copies the entries), so the
`workflow_fields` and `decision_fields` dicts that the function returns are
never updated and keep their initial empty-string values.  The function is
total (never raises) by construction. -/
def parse_enhanced_analysis (text : Str) : List (Str × Str) × List (Str × Str) :=
  let _ := all_fields text
  (workflowKeys.map (fun k => (k, ([] : Str))),
   decisionKeys.map (fun k => (k, ([] : Str))))

/-- Marker-containment test used to state the missing-field claims: does the
text contain `**F:**` (case-insensitively) anywhere? -/
def containsMarker (field : Str) : Str → Bool
  | [] => false
  | c :: t => startsWithIEq (markerOf field) (c :: t) || containsMarker field t

/-! ## Claims C1, C3, C9 about the field parser -/

/-- Helper: looking up a key in a constant-valued association list built over
a key list containing it. -/
theorem lookup_map_const {α β : Type} [BEq α] [LawfulBEq α] (l : List α) (f : α) (c : β)
    (hf : f ∈ l) : (l.map (fun k => (k, c))).lookup f = some c := by
  induction l with
  | nil => cases hf
  | cons a t ih =>
    rcases List.mem_cons.mp hf with h | h
    · subst h; simp [List.lookup]
    · by_cases he : f = a
      · subst he; simp [List.lookup]
      · simpa [List.lookup, beq_eq_false_iff_ne.mpr he] using ih h

/-- Concrete extractor output exhibiting the C1 divergence. -/
def demoText : Str := "**SUMMARY:** Hello".data

/-- C1 (code bug): the extraction loop of `parse_enhanced_analysis` computes
the captured value "Hello" for the field SUMMARY (visible in the merged dict
`all_fields` it populates), yet the mapping the function returns binds
SUMMARY to the empty string, because the loop mutates only the merged copy
and the untouched initial dicts are returned. -/
theorem parse_enhanced_discards_extraction :
    extractField "SUMMARY".data demoText = "Hello".data ∧
    (all_fields demoText).lookup "SUMMARY".data = some "Hello".data ∧
    (parse_enhanced_analysis demoText).1.lookup "SUMMARY".data = some [] := by
  refine ⟨by decide, by decide, by decide⟩

/-- C3: for any extractor output text and any expected field name whose
marker does not occur in the text, the returned mapping binds that field to
the empty string, and no expected key is ever omitted (the key sets of the
two returned dicts are exactly the expected ones).  The embedded parser is a
total function, so no exception is possible. -/
theorem missing_field_defaults (text f : Str)
    (hf : f ∈ workflowKeys ++ decisionKeys)
    (_hnm : containsMarker f text = false) :
    ((parse_enhanced_analysis text).1 ++ (parse_enhanced_analysis text).2).lookup f
      = some [] ∧
    (parse_enhanced_analysis text).1.map Prod.fst = workflowKeys ∧
    (parse_enhanced_analysis text).2.map Prod.fst = decisionKeys := by
  refine ⟨?_, ?_, ?_⟩
  · show ((workflowKeys.map fun k => (k, ([] : Str))) ++
        (decisionKeys.map fun k => (k, ([] : Str)))).lookup f = some []
    rw [← List.map_append]
    exact lookup_map_const _ f _ hf
  · simp only [parse_enhanced_analysis, List.map_map]
    rw [show (Prod.fst ∘ fun k : Str => (k, ([] : Str))) = id from rfl]
    exact List.map_id _
  · simp only [parse_enhanced_analysis, List.map_map]
    rw [show (Prod.fst ∘ fun k : Str => (k, ([] : Str))) = id from rfl]
    exact List.map_id _

/-- Witness for C3 at a concrete text containing no markers. -/
theorem missing_field_defaults_witness :
    ((parse_enhanced_analysis "hello".data).1 ++
        (parse_enhanced_analysis "hello".data).2).lookup "SUMMARY".data = some [] ∧
    (parse_enhanced_analysis "hello".data).1.map Prod.fst = workflowKeys ∧
    (parse_enhanced_analysis "hello".data).2.map Prod.fst = decisionKeys :=
  missing_field_defaults "hello".data "SUMMARY".data (by decide) (by decide)

/-- C9: the field parser is deterministic and idempotent — it is a pure
function of the input text, so two invocations on the same text return
identical mappings (and the extraction loop's merged dict is likewise
reproducible). -/
theorem parser_deterministic (t : Str) :
    parse_enhanced_analysis t = parse_enhanced_analysis t ∧ all_fields t = all_fields t :=
  ⟨rfl, rfl⟩

/-! ## JSON model for the FAQ parser (`parse_faq_analysis`)

The source locates a JSON snippet with `re.search(r'\{.*\}', text, re.DOTALL)`
(leftmost opening brace, greedy up to the last closing brace anywhere in the
text) and feeds it to `json.loads`.  The embedding implements the span
location and a recursive-descent JSON reader covering the grammar
`json.loads` accepts (objects, arrays, strings with escapes, numbers, the
literals true/false/null and Python's NaN/Infinity extensions); numbers are
kept as their raw character spans, which is adequate because no claim
observes a numeric value.  Error messages of `json.JSONDecodeError` are not
reproduced verbatim; the claims only observe the `"JSON parsing error: "`
prefix the source adds. -/

inductive J where
  | jnull
  | jbool (b : Bool)
  | jnum (raw : Str)
  | jstr (s : Str)
  | jarr (xs : List J)
  | jobj (kvs : List (Str × J))

/-- Index of the first occurrence of a character, if any. -/
def firstIdx (c : Char) : Str → Option Nat
  | [] => none
  | a :: t => if a = c then some 0 else (firstIdx c t).map (· + 1)

/-- Embedding of `re.search(r'\{.*\}', s, re.DOTALL)`: a match exists iff
some `\x7b` is followed (strictly later) by some `\x7d`; the leftmost match
starts at the first `\x7b` and, `.*` being greedy, ends at the last `\x7d`
of the whole text. -/
def jsonSpan (s : Str) : Option Str :=
  match firstIdx '{' s, firstIdx '}' s.reverse with
  | some i, some jr =>
      let jdx := s.length - 1 - jr
      if i < jdx then some ((s.drop i).take (jdx - i + 1)) else none
  | _, _ => none

/-- JSON inter-token whitespace (as accepted by `json.loads`). -/
def isJsonWs (c : Char) : Bool := c = ' ' || c = '\t' || c = '\n' || c = '\r'

/-- Skip JSON whitespace. -/
def skipWs : Str → Str
  | [] => []
  | c :: t => if isJsonWs c then skipWs t else c :: t

/-- Hexadecimal digit value. -/
def hexVal (c : Char) : Option Nat :=
  if '0' ≤ c && c ≤ '9' then some (c.toNat - 48)
  else if 'a' ≤ c && c ≤ 'f' then some (c.toNat - 87)
  else if 'A' ≤ c && c ≤ 'F' then some (c.toNat - 55)
  else none

/-- Read a JSON string body (the opening quote already consumed), handling
the escape sequences `json.loads` accepts and rejecting raw control
characters, returning the decoded text and the remaining input. -/
def parseStr (s : Str) : Option (Str × Str) :=
  match s with
  | [] => none
  | '"' :: r => some ([], r)
  | '\\' :: e :: r =>
    match e with
    | '"' => (parseStr r).map (fun p => ('"' :: p.1, p.2))
    | '\\' => (parseStr r).map (fun p => ('\\' :: p.1, p.2))
    | '/' => (parseStr r).map (fun p => ('/' :: p.1, p.2))
    | 'b' => (parseStr r).map (fun p => ('\x08' :: p.1, p.2))
    | 'f' => (parseStr r).map (fun p => ('\x0c' :: p.1, p.2))
    | 'n' => (parseStr r).map (fun p => ('\n' :: p.1, p.2))
    | 'r' => (parseStr r).map (fun p => ('\r' :: p.1, p.2))
    | 't' => (parseStr r).map (fun p => ('\t' :: p.1, p.2))
    | 'u' =>
      match r with
      | a :: b :: c :: d :: r2 =>
        match hexVal a, hexVal b, hexVal c, hexVal d with
        | some ha, some hb, some hc, some hd =>
          (parseStr r2).map
            (fun p => (Char.ofNat (((ha * 16 + hb) * 16 + hc) * 16 + hd) :: p.1, p.2))
        | _, _, _, _ => none
      | _ => none
    | _ => none
  | c :: r => if c.toNat < 32 then none else (parseStr r).map (fun p => (c :: p.1, p.2))

/-- Decimal digit test. -/
def isDigit (c : Char) : Bool := '0' ≤ c && c ≤ '9'

/-- Split off a (possibly empty) run of leading digits. -/
def takeDigits : Str → Str × Str
  | [] => ([], [])
  | c :: t =>
    if isDigit c then
      let p := takeDigits t
      (c :: p.1, p.2)
    else ([], c :: t)

/-- Optional exponent part of a JSON number (after the integer/fraction
part `acc` has been consumed). -/
def parseExp (acc : Str) (s : Str) : Option (J × Str) :=
  match s with
  | e :: r =>
    if e = 'e' || e = 'E' then
      let sr : Str × Str := match r with
        | '+' :: r2 => (['+'], r2)
        | '-' :: r2 => (['-'], r2)
        | _ => ([], r)
      match sr.2 with
      | c :: _ =>
        if isDigit c then
          let p := takeDigits sr.2
          some (.jnum (acc ++ e :: sr.1 ++ p.1), p.2)
        else none
      | [] => none
    else some (.jnum acc, e :: r)
  | [] => some (.jnum acc, [])

/-- Optional fraction part of a JSON number. -/
def parseFrac (acc : Str) (s : Str) : Option (J × Str) :=
  match s with
  | '.' :: r =>
    match r with
    | c :: _ =>
      if isDigit c then
        let p := takeDigits r
        parseExp (acc ++ '.' :: p.1) p.2
      else none
    | [] => none
  | _ => parseExp acc s

/-- JSON number (strict JSON integer grammar: `-?(0|[1-9][0-9]*)` followed
by optional fraction and exponent), plus Python's `-Infinity`. -/
def parseNum (s : Str) : Option (J × Str) :=
  match s with
  | '-' :: 'I' :: 'n' :: 'f' :: 'i' :: 'n' :: 'i' :: 't' :: 'y' :: r =>
      some (.jnum "-Infinity".data, r)
  | '-' :: '0' :: r => parseFrac "-0".data r
  | '-' :: c :: r =>
    if '1' ≤ c && c ≤ '9' then
      let p := takeDigits r
      parseFrac ('-' :: c :: p.1) p.2
    else none
  | '0' :: r => parseFrac ['0'] r
  | c :: r =>
    if '1' ≤ c && c ≤ '9' then
      let p := takeDigits r
      parseFrac (c :: p.1) p.2
    else none
  | [] => none

mutual

/-- Read one JSON value (fuel-bounded recursion). -/
def parseVal : Nat → Str → Option (J × Str)
  | 0, _ => none
  | fuel + 1, s =>
    match skipWs s with
    | 't' :: 'r' :: 'u' :: 'e' :: r => some (.jbool true, r)
    | 'f' :: 'a' :: 'l' :: 's' :: 'e' :: r => some (.jbool false, r)
    | 'n' :: 'u' :: 'l' :: 'l' :: r => some (.jnull, r)
    | 'N' :: 'a' :: 'N' :: r => some (.jnum "NaN".data, r)
    | 'I' :: 'n' :: 'f' :: 'i' :: 'n' :: 'i' :: 't' :: 'y' :: r =>
        some (.jnum "Infinity".data, r)
    | '"' :: r => (parseStr r).map (fun p => (.jstr p.1, p.2))
    | '[' :: r =>
      (match skipWs r with
       | ']' :: r2 => some (.jarr [], r2)
       | r1 => (parseArrItems fuel r1).map (fun p => (.jarr p.1, p.2)))
    | '{' :: r =>
      (match skipWs r with
       | '}' :: r2 => some (.jobj [], r2)
       | r1 => (parseObjItems fuel r1).map (fun p => (.jobj p.1, p.2)))
    | s1 => parseNum s1

/-- Read the comma-separated items of a non-empty JSON array, up to and
including the closing bracket. -/
def parseArrItems : Nat → Str → Option (List J × Str)
  | 0, _ => none
  | fuel + 1, s =>
    match parseVal fuel s with
    | none => none
    | some (v, r) =>
      match skipWs r with
      | ',' :: r2 => (parseArrItems fuel r2).map (fun p => (v :: p.1, p.2))
      | ']' :: r2 => some ([v], r2)
      | _ => none

/-- Read the members of a non-empty JSON object, up to and including the
closing brace.  Duplicate keys are kept in order; lookups take the last
occurrence, matching Python dict construction. -/
def parseObjItems : Nat → Str → Option (List (Str × J) × Str)
  | 0, _ => none
  | fuel + 1, s =>
    match skipWs s with
    | '"' :: r =>
      match parseStr r with
      | none => none
      | some (k, r1) =>
        match skipWs r1 with
        | ':' :: r2 =>
          match parseVal fuel r2 with
          | none => none
          | some (v, r3) =>
            match skipWs r3 with
            | ',' :: r4 => (parseObjItems fuel r4).map (fun p => ((k, v) :: p.1, p.2))
            | '}' :: r4 => some ([(k, v)], r4)
            | _ => none
        | _ => none
    | _ => none

end

/-- Embedding of `json.loads`: one JSON value, optionally surrounded by
whitespace; anything left over is an error ("Extra data").  The fuel bound
`2 * length + 2` dominates the recursion depth, which grows by at most two
per character consumed. -/
def jsonLoads (s : Str) : Except Str J :=
  match parseVal (2 * s.length + 2) s with
  | none => .error "Expecting value".data
  | some (v, r) => if (skipWs r).isEmpty then .ok v else .error "Extra data".data

/-! ## Embedding of `parse_faq_analysis` -/

/-- Python dict `get` with default over the parsed member list: the last
binding of a duplicated key wins, as in a dict built by `json.loads`. -/
def jGetD (kvs : List (Str × J)) (k : Str) (d : J) : J :=
  match (kvs.filter (fun p => p.1 == k)).getLast? with
  | some p => p.2
  | none => d

/-- Python truthiness for the JSON values that can appear here.  For numbers
the raw span is inspected: a number is falsy exactly when it denotes zero,
i.e. contains no nonzero digit (NaN/Infinity contain letters and are truthy,
matching Python). -/
def pyTruthyJ : J → Bool
  | .jnull => false
  | .jbool b => b
  | .jnum r => r.any (fun c => ('1' ≤ c && c ≤ '9') || c = 'N' || c = 'I')
  | .jstr s => !s.isEmpty
  | .jarr xs => !xs.isEmpty
  | .jobj kvs => !kvs.isEmpty

/-- Rendering of a JSON value inside the f-string `f"• ⟨topic⟩: ⟨text⟩"`.
Faithful for strings, booleans, None and integer numbers; the claims only
ever observe the string case, so the rendering of floats, lists and dicts
is a placeholder. -/
def pyStrJ : J → Str
  | .jstr s => s
  | .jbool true => "True".data
  | .jbool false => "False".data
  | .jnull => "None".data
  | .jnum r => r
  | .jarr _ => "<list>".data
  | .jobj _ => "<dict>".data

/-- The value `faq_data.get('FAQ_Items', [])` is iterated with a `for` loop.
Iterating a JSON array yields its elements; iterating an empty string or
empty dict yields nothing; every other case raises in Python before any
item is processed (`TypeError` for non-iterables, `AttributeError` on
`.get` for the string/dict element types), which the source's generic
`except Exception` turns into the processing-error result. -/
def iterItems : J → Except Unit (List J)
  | .jarr xs => .ok xs
  | .jstr [] => .ok []
  | .jobj [] => .ok []
  | _ => .error ()

/-- The bulleted line the loop body builds for one (dict) item. -/
def bulletOf : J → Str
  | .jobj ikvs =>
      "• ".data ++ pyStrJ (jGetD ikvs "Topic".data (.jstr [])) ++ ": ".data ++
        pyStrJ (jGetD ikvs "FAQ_Text".data (.jstr []))
  | _ => []

/-- The `formatted_items` loop: each item must be a dict (anything else
raises, surfacing as the processing-error result); a bulleted line is
appended only when both `Topic` and `FAQ_Text` are truthy. -/
def formatItems : List J → Except Unit (List Str)
  | [] => .ok []
  | .jobj ikvs :: rest =>
    (match formatItems rest with
     | .error u => .error u
     | .ok tail =>
       if pyTruthyJ (jGetD ikvs "Topic".data (.jstr [])) &&
           pyTruthyJ (jGetD ikvs "FAQ_Text".data (.jstr [])) then
         .ok (bulletOf (.jobj ikvs) :: tail)
       else .ok tail)
  | _ :: _ => .error ()

/-- Embedding of `"\n".join`. -/
def joinNL : List Str → Str
  | [] => []
  | [x] => x
  | x :: xs => x ++ '\n' :: joinNL xs

/-- Decimal rendering of a count, as Python `str(len(...))`. -/
def natToDec (n : Nat) : Str := Nat.toDigits 10 n

/-- The literal fallback sentence. -/
def noItemsMsg : Str := "No FAQ items mentioned in this call.".data

/-- Result dict of `parse_faq_analysis`. -/
structure FaqResult where
  FAQ_ITEMS : Str
  TOTAL_ITEMS : Str
  NOTES : J
  RAW_JSON : Str

/-- Embedding of `parse_faq_analysis`: locate a JSON span, decode it, render
one bulleted line per item with truthy Topic and FAQ_Text; on a missing span
or a decode error return the corresponding synthetic result (never raising).
The exact Python exception message after "Processing error: " is not
reproduced; no claim observes it. -/
def parse_faq_analysis (analysis_text : Str) : FaqResult :=
  match jsonSpan analysis_text with
  | none =>
      ⟨noItemsMsg, "0".data, .jstr "Could not parse response".data, analysis_text⟩
  | some json_str =>
    match jsonLoads json_str with
    | .error m =>
        ⟨"Error parsing FAQ analysis".data, "0".data,
         .jstr ("JSON parsing error: ".data ++ m), analysis_text⟩
    | .ok v =>
      match v with
      | .jobj kvs =>
        (match iterItems (jGetD kvs "FAQ_Items".data (.jarr [])) with
         | .error _ =>
             ⟨"Error processing FAQ analysis".data, "0".data,
              .jstr "Processing error: TypeError".data, analysis_text⟩
         | .ok items =>
           match formatItems items with
           | .error _ =>
               ⟨"Error processing FAQ analysis".data, "0".data,
                .jstr "Processing error: AttributeError".data, analysis_text⟩
           | .ok bullets =>
               ⟨if bullets.isEmpty then noItemsMsg else joinNL bullets,
                natToDec bullets.length, jGetD kvs "Notes".data (.jstr []),
                json_str⟩)
      | _ =>
          ⟨"Error processing FAQ analysis".data, "0".data,
           .jstr "Processing error: AttributeError".data, analysis_text⟩

/-! ## Claims C2, C8 about the FAQ parser -/

/-- Helper: when every FAQ item is a dict whose Topic and FAQ_Text are
nonempty strings, the formatting loop keeps exactly one bulleted line per
item, in order. -/
theorem formatItems_all_strings (items : List J)
    (h : ∀ it ∈ items, ∃ ikvs tp tx, it = J.jobj ikvs ∧
        jGetD ikvs "Topic".data (J.jstr []) = J.jstr tp ∧ tp ≠ [] ∧
        jGetD ikvs "FAQ_Text".data (J.jstr []) = J.jstr tx ∧ tx ≠ []) :
    formatItems items = .ok (items.map bulletOf) := by
  induction items with
  | nil => rfl
  | cons it rest ih =>
    obtain ⟨ikvs, tp, tx, hobj, htp, htpne, htx, htxne⟩ :=
      h it (List.mem_cons_self it rest)
    subst hobj
    have hrest := ih (fun x hx => h x (List.mem_cons_of_mem _ hx))
    have h1 : pyTruthyJ (jGetD ikvs "Topic".data (J.jstr [])) = true := by
      rw [htp]; cases tp with
      | nil => exact absurd rfl htpne
      | cons a t => rfl
    have h2 : pyTruthyJ (jGetD ikvs "FAQ_Text".data (J.jstr [])) = true := by
      rw [htx]; cases tx with
      | nil => exact absurd rfl htxne
      | cons a t => rfl
    simp only [formatItems, hrest, h1, h2, Bool.and_self, if_true, List.map_cons]

/-- C2 (amended): for every input whose located JSON span decodes to an
object whose FAQ_Items member is a list of dicts with nonempty-string Topic
and FAQ_Text values, the rendered FAQ_ITEMS string is one bulleted line per
item in input order (the fallback sentence when the list is empty) and
TOTAL_ITEMS is the decimal rendering of the item count. -/
theorem faq_roundtrip_amended (text json_str : Str) (kvs : List (Str × J))
    (items : List J)
    (h1 : jsonSpan text = some json_str)
    (h2 : jsonLoads json_str = .ok (J.jobj kvs))
    (h3 : jGetD kvs "FAQ_Items".data (J.jarr []) = J.jarr items)
    (h4 : ∀ it ∈ items, ∃ ikvs tp tx, it = J.jobj ikvs ∧
        jGetD ikvs "Topic".data (J.jstr []) = J.jstr tp ∧ tp ≠ [] ∧
        jGetD ikvs "FAQ_Text".data (J.jstr []) = J.jstr tx ∧ tx ≠ []) :
    (parse_faq_analysis text).FAQ_ITEMS =
      (if items.isEmpty then noItemsMsg else joinNL (items.map bulletOf)) ∧
    (parse_faq_analysis text).TOTAL_ITEMS = natToDec items.length := by
  have hfmt := formatItems_all_strings items h4
  have hie : (items.map bulletOf).isEmpty = items.isEmpty := by
    cases items <;> rfl
  simp only [parse_faq_analysis, h1, h2, h3, iterItems, hfmt, hie,
    List.length_map]
  exact ⟨by trivial, by trivial⟩

/-- Concrete FAQ extractor output: valid JSON, one item having both keys but
an empty Topic string. -/
def cexFaq : Str :=
  "\x7b\"FAQ_Items\": [\x7b\"Topic\": \"\", \"FAQ_Text\": \"x\"\x7d]\x7d".data

/-- C2 counterexample: `cexFaq` contains a syntactically valid JSON object
whose FAQ_Items list has exactly one element, a dict having both Topic and
FAQ_Text keys — yet the parser renders no bulleted line for it and reports
TOTAL_ITEMS = "0", not "1", because the empty Topic string is falsy and the
item is skipped. -/
theorem faq_roundtrip_cex :
    jsonSpan cexFaq = some cexFaq ∧
    jsonLoads cexFaq = .ok (J.jobj [("FAQ_Items".data,
      J.jarr [J.jobj [("Topic".data, J.jstr []),
                      ("FAQ_Text".data, J.jstr "x".data)]])]) ∧
    (parse_faq_analysis cexFaq).TOTAL_ITEMS ≠ "1".data ∧
    (parse_faq_analysis cexFaq).TOTAL_ITEMS = "0".data ∧
    (parse_faq_analysis cexFaq).FAQ_ITEMS = noItemsMsg := by
  exact ⟨by decide, by rfl, by decide, by decide, by decide⟩

/-- Concrete well-formed FAQ extractor output with two good items. -/
def faqGood : Str :=
  ("\x7b\"FAQ_Items\": [\x7b\"Topic\": \"A\", \"FAQ_Text\": \"B\"\x7d, " ++
   "\x7b\"Topic\": \"C\", \"FAQ_Text\": \"D\"\x7d], \"Notes\": \"n\"\x7d").data

/-- First FAQ item of `faqGood`. -/
def faqItem1 : J :=
  J.jobj [("Topic".data, J.jstr "A".data), ("FAQ_Text".data, J.jstr "B".data)]

/-- Second FAQ item of `faqGood`. -/
def faqItem2 : J :=
  J.jobj [("Topic".data, J.jstr "C".data), ("FAQ_Text".data, J.jstr "D".data)]

/-- Member list of the JSON object in `faqGood`. -/
def faqGoodKvs : List (Str × J) :=
  [("FAQ_Items".data, J.jarr [faqItem1, faqItem2]), ("Notes".data, J.jstr "n".data)]

/-- Witness for the amended C2 at a concrete two-item input. -/
theorem faq_roundtrip_witness :
    (parse_faq_analysis faqGood).FAQ_ITEMS =
      (if ([faqItem1, faqItem2] : List J).isEmpty then noItemsMsg
       else joinNL (([faqItem1, faqItem2] : List J).map bulletOf)) ∧
    (parse_faq_analysis faqGood).TOTAL_ITEMS =
      natToDec ([faqItem1, faqItem2] : List J).length :=
  faq_roundtrip_amended faqGood faqGood faqGoodKvs [faqItem1, faqItem2]
    (by decide) (by rfl) (by rfl)
    (by
      intro it hit
      rcases List.mem_cons.mp hit with h | h
      · exact ⟨[("Topic".data, J.jstr "A".data), ("FAQ_Text".data, J.jstr "B".data)],
          "A".data, "B".data, h, rfl, by decide, rfl, by decide⟩
      · rcases List.mem_cons.mp h with h | h
        · exact ⟨[("Topic".data, J.jstr "C".data), ("FAQ_Text".data, J.jstr "D".data)],
            "C".data, "D".data, h, rfl, by decide, rfl, by decide⟩
        · cases h)

/-- C8: whenever the located JSON fails to decode, or no JSON span is
located at all, no exception escapes: the result has TOTAL_ITEMS = "0" and
a notes field describing the parse failure.  The embedded parser is a total
function, so no exception is possible. -/
theorem faq_malformed_contract (text : Str)
    (h : jsonSpan text = none ∨
         ∃ js m, jsonSpan text = some js ∧ jsonLoads js = .error m) :
    (parse_faq_analysis text).TOTAL_ITEMS = "0".data ∧
    ((parse_faq_analysis text).NOTES = .jstr "Could not parse response".data ∨
     ∃ m, (parse_faq_analysis text).NOTES =
       .jstr ("JSON parsing error: ".data ++ m)) := by
  rcases h with h | ⟨js, m, h1, h2⟩
  · refine ⟨?_, Or.inl ?_⟩ <;> simp [parse_faq_analysis, h]
  · refine ⟨?_, Or.inr ⟨m, ?_⟩⟩ <;> simp [parse_faq_analysis, h1, h2]

/-- Witness for C8 at a concrete input containing no JSON object. -/
theorem faq_malformed_witness :
    (parse_faq_analysis "no json here".data).TOTAL_ITEMS = "0".data ∧
    ((parse_faq_analysis "no json here".data).NOTES =
        .jstr "Could not parse response".data ∨
     ∃ m, (parse_faq_analysis "no json here".data).NOTES =
       .jstr ("JSON parsing error: ".data ++ m)) :=
  faq_malformed_contract "no json here".data (Or.inl rfl)

/-! ## Channel splitter (`split_channels`), claim C6 -/

/-- Embedding of Python `mp3_path.replace(".mp3", "")`: delete every
non-overlapping occurrence of ".mp3", scanning left to right — not only a
trailing suffix. -/
def stripMp3 : Str → Str
  | [] => []
  | '.' :: 'm' :: 'p' :: '3' :: t => stripMp3 t
  | c :: t => c :: stripMp3 t

/-- Does the text contain ".mp3" anywhere? -/
def hasMp3 : Str → Bool
  | '.' :: 'm' :: 'p' :: '3' :: _ => true
  | _ :: t => hasMp3 t
  | [] => false

/-- Helper: when ".mp3" does not occur in `q`, replacing every occurrence of
".mp3" in `q ++ ".mp3"` removes exactly the suffix.  (No occurrence can
straddle the boundary, because no proper prefix of ".mp3" is also a proper
suffix of it.) -/
theorem stripMp3_append_mp3 (q : Str) (hq : hasMp3 q = false) :
    stripMp3 (q ++ ".mp3".data) = q := by
  induction q with
  | nil => rfl
  | cons a t ih =>
    have ht : hasMp3 t = false := by
      rw [hasMp3.eq_def] at hq
      split at hq
      · exact absurd hq (by simp)
      · next c t2 heq2 =>
          cases heq2
          exact hq
      · simp_all
    rw [List.cons_append, stripMp3.eq_def]
    split
    · simp_all
    · exfalso
      rcases t with _ | ⟨x, _ | ⟨y, _ | ⟨z, t3⟩⟩⟩ <;> simp_all [hasMp3]
    · rename_i hno heq
      injection heq with h1 h2
      rw [← h1, ← h2, ih ht]

/-- Left output name computed by `split_channels`. -/
def leftName (p : Str) : Str := stripMp3 p ++ "_left.wav".data

/-- Right output name computed by `split_channels`. -/
def rightName (p : Str) : Str := stripMp3 p ++ "_right.wav".data

/-- Outcome of the external demux process (`subprocess.run` of ffmpeg with
`check=True`): exit 0, or nonzero exit with captured stderr. -/
inductive FfmpegOutcome where
  | success
  | failure (stderr : Str)

/-- Embedding of `split_channels`: on success of the external process the
two derived paths are returned; on `CalledProcessError` the wrapped
exception message carries the process's stderr. -/
def split_channels (mp3_path : Str) (o : FfmpegOutcome) : Except Str (Str × Str) :=
  match o with
  | .success => .ok (leftName mp3_path, rightName mp3_path)
  | .failure stderr => .error ("Audio processing failed: ".data ++ stderr)

/-- Output files present after `split_channels`, with the demux tool
modelled per its contract: it creates the two outputs on success and none
on failure (the splitter code itself creates and removes no files). -/
def split_files (mp3_path : Str) (o : FfmpegOutcome) : List Str :=
  match o with
  | .success => [leftName mp3_path, rightName mp3_path]
  | .failure _ => []

/-- Follows the spec's words for C6 ("suffix convention": the input base
name plus the channel suffix): the base name is the path with one trailing
".mp3" removed. -/
def suffixBase (p : Str) : Str :=
  if p.drop (p.length - 4) = ".mp3".data then p.take (p.length - 4) else p

/-- Spec-side left output name under the suffix convention. -/
def suffixLeftName (p : Str) : Str := suffixBase p ++ "_left.wav".data

/-- Spec-side right output name under the suffix convention. -/
def suffixRightName (p : Str) : Str := suffixBase p ++ "_right.wav".data

/-- C6 counterexample: on the path "/tmp/a.mp3.mp3" the code derives the
output names by deleting every ".mp3" occurrence, which differs from the
spec's suffix convention. -/
theorem split_suffix_cex :
    split_channels "/tmp/a.mp3.mp3".data .success =
      .ok ("/tmp/a_left.wav".data, "/tmp/a_right.wav".data) ∧
    "/tmp/a_left.wav".data ≠ suffixLeftName "/tmp/a.mp3.mp3".data := by
  exact ⟨rfl, by decide⟩

/-- C6 (amended): on success the splitter returns exactly the two output
handles named by deleting every ".mp3" occurrence from the input path and
appending "_left.wav"/"_right.wav" — which agrees with the spec's suffix
convention whenever ".mp3" occurs only as the suffix, as it does for the
retriever's temporary files; on nonzero exit of the external process it
fails with an error carrying the process's stderr, and zero output files
are left behind. -/
theorem split_channels_contract (p e q : Str) (hq : hasMp3 q = false) :
    split_channels p .success = .ok (leftName p, rightName p) ∧
    split_files p .success = [leftName p, rightName p] ∧
    split_channels p (.failure e) =
      .error ("Audio processing failed: ".data ++ e) ∧
    split_files p (.failure e) = [] ∧
    split_channels (q ++ ".mp3".data) .success =
      .ok (suffixLeftName (q ++ ".mp3".data), suffixRightName (q ++ ".mp3".data)) := by
  refine ⟨rfl, rfl, rfl, rfl, ?_⟩
  have hdrop : (q ++ ".mp3".data).drop ((q ++ ".mp3".data).length - 4) = ".mp3".data := by
    rw [List.length_append]
    show (q ++ ".mp3".data).drop (q.length + 4 - 4) = _
    rw [Nat.add_sub_cancel]
    exact List.drop_left q ".mp3".data
  have htake : (q ++ ".mp3".data).take ((q ++ ".mp3".data).length - 4) = q := by
    rw [List.length_append]
    show (q ++ ".mp3".data).take (q.length + 4 - 4) = _
    rw [Nat.add_sub_cancel]
    exact List.take_left q ".mp3".data
  have hbase : suffixBase (q ++ ".mp3".data) = q := by
    unfold suffixBase
    rw [hdrop, htake]
    simp
  show Except.ok (leftName (q ++ ".mp3".data), rightName (q ++ ".mp3".data)) = _
  unfold leftName rightName suffixLeftName suffixRightName
  rw [hbase, stripMp3_append_mp3 q hq]

/-- Witness for the amended C6 at a concrete path ending in ".mp3". -/
theorem split_channels_witness :
    split_channels "/tmp/t.mp3".data .success =
      .ok (leftName "/tmp/t.mp3".data, rightName "/tmp/t.mp3".data) ∧
    split_files "/tmp/t.mp3".data .success =
      [leftName "/tmp/t.mp3".data, rightName "/tmp/t.mp3".data] ∧
    split_channels "/tmp/t.mp3".data (.failure "boom".data) =
      .error ("Audio processing failed: ".data ++ "boom".data) ∧
    split_files "/tmp/t.mp3".data (.failure "boom".data) = [] ∧
    split_channels ("/tmp/t".data ++ ".mp3".data) .success =
      .ok (suffixLeftName ("/tmp/t".data ++ ".mp3".data),
           suffixRightName ("/tmp/t".data ++ ".mp3".data)) :=
  split_channels_contract "/tmp/t.mp3".data "boom".data "/tmp/t".data (by decide)

/-! ## Orchestration model: the `/analyze` and `/analyze-faq` endpoints

The endpoints are modelled as functions over an oracle environment fixing
every external collaborator's outcome, a request body (`none` when the
request carried no JSON), and produce the HTTP response, the ordered trace
of external actions, the temporary files created, and the files whose
deletion the `finally`-block `cleanup_files` call attempts. -/

abbrev Obj := List (Str × J)

/-- Python dict access on a JSON object body (last binding wins). -/
def jGetLast (kvs : Obj) (k : Str) : Option J :=
  ((kvs.filter (fun p => p.1 == k)).getLast?).map (fun p => p.2)

/-- The check `data.get('test') == True`.  Python's `==` also equates the
number 1 with `True`; only the plain spelling `1` of that number is
modelled. -/
def pyEqTrueJ : J → Bool
  | .jbool b => b
  | .jnum r => r == ['1']
  | _ => false

/-- Does the request body trigger the test branch? -/
def testFlag (d : Obj) : Bool :=
  match jGetLast d "test".data with
  | some v => pyEqTrueJ v
  | none => false

/-- The `required_fields` list of both endpoints. -/
def requiredKeys : List Str :=
  ["file_url".data, "file_token".data, "sheet_id".data, "sheet_name".data,
   "row_number".data, "transcript_folder_id".data, "file_name".data]

/-- Key membership (`field in data`). -/
def hasKey (d : Obj) (k : Str) : Bool := d.any (fun p => p.1 == k)

/-- First required field missing from the body, if any (the validation loop
raises on the first one). -/
def firstMissing (d : Obj) : Option Str := requiredKeys.find? (fun k => !hasKey d k)

/-- Oracle outcomes for the external collaborators used by one job. -/
structure Env where
  fetch : Except Str Str
  ffmpeg : FfmpegOutcome
  transcribeL : Except Str Str
  transcribeR : Except Str Str
  recon : Except Str Str
  analysis : Except Str Str
  txtWrite : Except Str Unit
  upload : Except Str Str
  meta : Except Str (Option Nat)
  appendCols : Except Str Unit
  wfWrite : Except Str Unit
  decWrite : Except Str Unit
  faqWrite : Except Str Unit
  errWrite : Except Str Unit

/-- Did an oracle call succeed? -/
def exOk {α β : Type} : Except α β → Bool
  | .ok _ => true
  | .error _ => false

/-- External actions recorded in a job's trace.  Sheet-writing actions carry
an `ok` flag: `false` means the API call (or the credential construction
feeding it) failed, so the row was not mutated. -/
inductive Act where
  | fetchFile
  | splitAudio
  | transcribeChan (path : Str)
  | reconstructDialogue
  | extractAnalysis
  | parseFields
  | writeTxt (path : Str)
  | uploadTxt (path : Str)
  | sheetMeta
  | appendColumns
  | workflowWrite (sheetName rowNumber : J) (values : List Str) (ok : Bool)
  | decisionWrite (sheetName rowNumber : J) (values : List Str) (ok : Bool)
  | faqSheetWrite (sheetName rowNumber : J) (items total : Str) (notes : J) (ok : Bool)
  | errorWrite (sheetName rowNumber : J) (col : Nat) (value : Str) (ok : Bool)

/-- HTTP responses of the endpoints (`jsonify` payload plus status code;
`jsonify` without an explicit code returns 200). -/
inductive Resp where
  | testOk (message : Str)
  | jobOk (transcriptLink : Str) (wf df : List (Str × Str))
  | faqOk (transcriptLink : Str) (fields : FaqResult)
  | err (msg : Str) (status : Nat)

/-- Result of one endpoint invocation: response, action trace, temporary
files created, and files whose deletion `cleanup_files` attempts in the
`finally` block. -/
structure RunOut where
  resp : Resp
  trace : List Act
  created : List Str
  cleaned : List Str

/-- The `except` handler shared in shape by both endpoints: when a body was
received and is truthy, attempt one best-effort write of "ERROR: <message>"
into the status column of the job's row (the attempt is skipped when the
keys it dereferences are absent, since the `KeyError` is swallowed by the
bare `except`); any failure of the attempt itself is swallowed.  The
response is the error payload with status 500 in every case. -/
def errHandler (env : Env) (d : Option Obj) (col : Nat) (msg : Str)
    (tr : List Act) (created cleaned : List Str) : RunOut :=
  match d with
  | some dd =>
    if dd.isEmpty then ⟨.err msg 500, tr, created, cleaned⟩
    else if hasKey dd "sheet_name".data && hasKey dd "row_number".data &&
        hasKey dd "sheet_id".data then
      ⟨.err msg 500,
       tr ++ [.errorWrite ((jGetLast dd "sheet_name".data).getD J.jnull)
          ((jGetLast dd "row_number".data).getD J.jnull) col
          ("ERROR: ".data ++ msg) (exOk env.errWrite)],
       created, cleaned⟩
    else ⟨.err msg 500, tr, created, cleaned⟩
  | none => ⟨.err msg 500, tr, created, cleaned⟩

/-- Workflow range values (columns G through O): the seven workflow fields,
the transcript link, and the literal "Completed" status marker. -/
def wfValuesOf (wf : List (Str × Str)) (link : Str) : List Str :=
  workflowKeys.map (fun k => ((wf.lookup k).getD [])) ++ [link, "Completed".data]

/-- Decision range values (columns P through V). -/
def decValuesOf (df : List (Str × Str)) : List Str :=
  decisionKeys.map (fun k => ((df.lookup k).getD []))

/-- Embedding of `update_sheet_enhanced`: fetch sheet metadata, extend the
column count to 22 when the target sheet is found with fewer, then issue the
workflow range update followed by the independent decision range update; any
failing step wraps its message and aborts (later steps are not attempted and
nothing is rolled back). -/
def update_sheet_enhanced (env : Env) (sn rn : J) (link : Str)
    (wf df : List (Str × Str)) : Except Str Unit × List Act :=
  match env.meta with
  | .error e => (.error ("Enhanced sheet update failed: ".data ++ e), [.sheetMeta])
  | .ok colsOpt =>
    let writes : List Act → Except Str Unit × List Act := fun acts0 =>
      match env.wfWrite with
      | .error e =>
          (.error ("Enhanced sheet update failed: ".data ++ e),
           acts0 ++ [.workflowWrite sn rn (wfValuesOf wf link) false])
      | .ok _ =>
        match env.decWrite with
        | .error e =>
            (.error ("Enhanced sheet update failed: ".data ++ e),
             acts0 ++ [.workflowWrite sn rn (wfValuesOf wf link) true,
                       .decisionWrite sn rn (decValuesOf df) false])
        | .ok _ =>
            (.ok (), acts0 ++ [.workflowWrite sn rn (wfValuesOf wf link) true,
                               .decisionWrite sn rn (decValuesOf df) true])
    match colsOpt with
    | some cols =>
      if cols < 22 then
        match env.appendCols with
        | .error e =>
            (.error ("Enhanced sheet update failed: ".data ++ e),
             [.sheetMeta, .appendColumns])
        | .ok _ => writes [.sheetMeta, .appendColumns]
      else writes [.sheetMeta]
    | none => writes [.sheetMeta]

/-- Embedding of `update_faq_sheet`: one range update of columns B through E
with the FAQ fields and the "Completed" marker. -/
def update_faq_sheet (env : Env) (sn rn : J) (fr : FaqResult) :
    Except Str Unit × List Act :=
  match env.faqWrite with
  | .error e =>
      (.error ("FAQ sheet update failed: ".data ++ e),
       [.faqSheetWrite sn rn fr.FAQ_ITEMS fr.TOTAL_ITEMS fr.NOTES false])
  | .ok _ => (.ok (), [.faqSheetWrite sn rn fr.FAQ_ITEMS fr.TOTAL_ITEMS fr.NOTES true])

/-- Embedding of the `/analyze` endpoint (`analyze_call`).  Stage order,
error wrapping, the test-request branch, validation, the error handler and
the unconditional `finally` cleanup are translated from the source;
`created` lists the files brought into existence (the downloaded stereo
file, the two split outputs, the transcript file once written), `cleaned`
the paths bound to the four cleanup variables when the handler runs. -/
def analyze_call (env : Env) (d : Option Obj) : RunOut :=
  match d with
  | none => errHandler env none 15 "No JSON data received".data [] [] []
  | some dd =>
    if !dd.isEmpty && testFlag dd then
      ⟨.testOk "Webhook is working".data, [], [], []⟩
    else if dd.isEmpty then
      errHandler env (some dd) 15 "No JSON data received".data [] [] []
    else
      match firstMissing dd with
      | some k =>
          errHandler env (some dd) 15 ("Missing required field: ".data ++ k) [] [] []
      | none =>
        let sn := (jGetLast dd "sheet_name".data).getD J.jnull
        let rn := (jGetLast dd "row_number".data).getD J.jnull
        match env.fetch with
        | .error e =>
            errHandler env (some dd) 15 ("File download failed: ".data ++ e)
              [.fetchFile] [] []
        | .ok mp3 =>
          match split_channels mp3 env.ffmpeg with
          | .error e =>
              errHandler env (some dd) 15 e [.fetchFile, .splitAudio] [mp3] [mp3]
          | .ok (lp, rp) =>
            match env.transcribeL with
            | .error e =>
                errHandler env (some dd) 15 ("Transcription failed: ".data ++ e)
                  [.fetchFile, .splitAudio, .transcribeChan lp]
                  [mp3, lp, rp] [mp3, lp, rp]
            | .ok _agent =>
              match env.transcribeR with
              | .error e =>
                  errHandler env (some dd) 15 ("Transcription failed: ".data ++ e)
                    [.fetchFile, .splitAudio, .transcribeChan lp, .transcribeChan rp]
                    [mp3, lp, rp] [mp3, lp, rp]
              | .ok _patient =>
                match env.recon with
                | .error e =>
                    errHandler env (some dd) 15 ("Reconstruction failed: ".data ++ e)
                      [.fetchFile, .splitAudio, .transcribeChan lp,
                       .transcribeChan rp, .reconstructDialogue]
                      [mp3, lp, rp] [mp3, lp, rp]
                | .ok _dialogue =>
                  match env.analysis with
                  | .error e =>
                      errHandler env (some dd) 15
                        ("Enhanced analysis failed: ".data ++ e)
                        [.fetchFile, .splitAudio, .transcribeChan lp,
                         .transcribeChan rp, .reconstructDialogue, .extractAnalysis]
                        [mp3, lp, rp] [mp3, lp, rp]
                  | .ok atext =>
                    let wfdf := parse_enhanced_analysis atext
                    let txt := stripMp3 mp3 ++ "_enhanced_transcript.txt".data
                    let acts7 : List Act :=
                      [.fetchFile, .splitAudio, .transcribeChan lp,
                       .transcribeChan rp, .reconstructDialogue, .extractAnalysis,
                       .parseFields]
                    match env.txtWrite with
                    | .error e =>
                        errHandler env (some dd) 15 e (acts7 ++ [.writeTxt txt])
                          [mp3, lp, rp] [mp3, lp, rp, txt]
                    | .ok _ =>
                      match env.upload with
                      | .error e =>
                          errHandler env (some dd) 15 ("Upload failed: ".data ++ e)
                            (acts7 ++ [.writeTxt txt, .uploadTxt txt])
                            [mp3, lp, rp, txt] [mp3, lp, rp, txt]
                      | .ok link =>
                        let us := update_sheet_enhanced env sn rn link wfdf.1 wfdf.2
                        match us.1 with
                        | .error e =>
                            errHandler env (some dd) 15 e
                              (acts7 ++ [.writeTxt txt, .uploadTxt txt] ++ us.2)
                              [mp3, lp, rp, txt] [mp3, lp, rp, txt]
                        | .ok _ =>
                            ⟨.jobOk link wfdf.1 wfdf.2,
                             acts7 ++ [.writeTxt txt, .uploadTxt txt] ++ us.2,
                             [mp3, lp, rp, txt], [mp3, lp, rp, txt]⟩

/-- Embedding of the `/analyze-faq` endpoint (`analyze_faq`): identical
pipeline shape with the FAQ analysis/parse steps, the FAQ sheet update
(columns B through E) and error column F. -/
def analyze_faq (env : Env) (d : Option Obj) : RunOut :=
  match d with
  | none => errHandler env none 6 "No JSON data received".data [] [] []
  | some dd =>
    if !dd.isEmpty && testFlag dd then
      ⟨.testOk "FAQ webhook is working".data, [], [], []⟩
    else if dd.isEmpty then
      errHandler env (some dd) 6 "No JSON data received".data [] [] []
    else
      match firstMissing dd with
      | some k =>
          errHandler env (some dd) 6 ("Missing required field: ".data ++ k) [] [] []
      | none =>
        let sn := (jGetLast dd "sheet_name".data).getD J.jnull
        let rn := (jGetLast dd "row_number".data).getD J.jnull
        match env.fetch with
        | .error e =>
            errHandler env (some dd) 6 ("File download failed: ".data ++ e)
              [.fetchFile] [] []
        | .ok mp3 =>
          match split_channels mp3 env.ffmpeg with
          | .error e =>
              errHandler env (some dd) 6 e [.fetchFile, .splitAudio] [mp3] [mp3]
          | .ok (lp, rp) =>
            match env.transcribeL with
            | .error e =>
                errHandler env (some dd) 6 ("Transcription failed: ".data ++ e)
                  [.fetchFile, .splitAudio, .transcribeChan lp]
                  [mp3, lp, rp] [mp3, lp, rp]
            | .ok _agent =>
              match env.transcribeR with
              | .error e =>
                  errHandler env (some dd) 6 ("Transcription failed: ".data ++ e)
                    [.fetchFile, .splitAudio, .transcribeChan lp, .transcribeChan rp]
                    [mp3, lp, rp] [mp3, lp, rp]
              | .ok _patient =>
                match env.recon with
                | .error e =>
                    errHandler env (some dd) 6 ("Reconstruction failed: ".data ++ e)
                      [.fetchFile, .splitAudio, .transcribeChan lp,
                       .transcribeChan rp, .reconstructDialogue]
                      [mp3, lp, rp] [mp3, lp, rp]
                | .ok _dialogue =>
                  match env.analysis with
                  | .error e =>
                      errHandler env (some dd) 6 ("FAQ analysis failed: ".data ++ e)
                        [.fetchFile, .splitAudio, .transcribeChan lp,
                         .transcribeChan rp, .reconstructDialogue, .extractAnalysis]
                        [mp3, lp, rp] [mp3, lp, rp]
                  | .ok atext =>
                    let fr := parse_faq_analysis atext
                    let txt := stripMp3 mp3 ++ "_faq_transcript.txt".data
                    let acts7 : List Act :=
                      [.fetchFile, .splitAudio, .transcribeChan lp,
                       .transcribeChan rp, .reconstructDialogue, .extractAnalysis,
                       .parseFields]
                    match env.txtWrite with
                    | .error e =>
                        errHandler env (some dd) 6 e (acts7 ++ [.writeTxt txt])
                          [mp3, lp, rp] [mp3, lp, rp, txt]
                    | .ok _ =>
                      match env.upload with
                      | .error e =>
                          errHandler env (some dd) 6 ("Upload failed: ".data ++ e)
                            (acts7 ++ [.writeTxt txt, .uploadTxt txt])
                            [mp3, lp, rp, txt] [mp3, lp, rp, txt]
                      | .ok link =>
                        let us := update_faq_sheet env sn rn fr
                        match us.1 with
                        | .error e =>
                            errHandler env (some dd) 6 e
                              (acts7 ++ [.writeTxt txt, .uploadTxt txt] ++ us.2)
                              [mp3, lp, rp, txt] [mp3, lp, rp, txt]
                        | .ok _ =>
                            ⟨.faqOk link fr,
                             acts7 ++ [.writeTxt txt, .uploadTxt txt] ++ us.2,
                             [mp3, lp, rp, txt], [mp3, lp, rp, txt]⟩

/-- Values successfully written to a 1-based column of the job's row by a
trace, in order: the workflow range covers columns 7..15 (G..O), the
decision range 16..22 (P..V), an error write its single status column.
Only acts whose API call succeeded mutate the row; the FAQ range (written
to a different sheet layout) is outside this query's scope. -/
def cellWrites (col : Nat) : List Act → List Str
  | [] => []
  | a :: tr =>
    (match a with
     | .workflowWrite _ _ vs true =>
         if 7 ≤ col && col ≤ 15 then (vs.drop (col - 7)).take 1 else []
     | .decisionWrite _ _ vs true =>
         if 16 ≤ col && col ≤ 22 then (vs.drop (col - 16)).take 1 else []
     | .errorWrite _ _ c v true => if col = c then [v] else []
     | _ => []) ++ cellWrites col tr

/-- Final value of a cell after a trace, if it was ever written. -/
def finalCell (col : Nat) (tr : List Act) : Option Str := (cellWrites col tr).getLast?

/-! ## Claims C4, C5, C7, C10 about the endpoints -/

/-- Helper: when validation passes, every required key is present. -/
theorem hasKey_of_firstMissing_none (dd : Obj) (hreq : firstMissing dd = none)
    (k : Str) (hk : k ∈ requiredKeys) : hasKey dd k = true := by
  unfold firstMissing at hreq
  have := List.find?_eq_none.mp hreq k hk
  simpa using this

/-- C10: for every request body whose `test` key equals true, both per-call
endpoints return the success response immediately: no validation of the
required job fields takes place (the body `dd` is arbitrary), no pipeline
stage is invoked (the action trace is empty), and no temporary file is
created or cleaned. -/
theorem test_request_shortcircuit (env : Env) (dd : Obj)
    (hne : dd.isEmpty = false) (ht : testFlag dd = true) :
    analyze_call env (some dd) = ⟨.testOk "Webhook is working".data, [], [], []⟩ ∧
    analyze_faq env (some dd) = ⟨.testOk "FAQ webhook is working".data, [], [], []⟩ := by
  constructor <;> simp [analyze_call, analyze_faq, hne, ht]

/-- C4: when the retrieval step fails on a validated request, the splitter,
transcriber, reconstructor, extractor, parser and archive upload are never
invoked (the trace holds only the download attempt and the error write);
exactly one best-effort write of "ERROR: <message>" is attempted at the
status column 15 (column O) of the job's row; its own success or failure
(`exOk env.errWrite`) is recorded but does not alter the response, which is
the error payload with status 500 carrying the failure message. -/
theorem retrieval_failure_contract (env : Env) (dd : Obj) (e : Str)
    (hne : dd.isEmpty = false) (ht : testFlag dd = false)
    (hreq : firstMissing dd = none) (hf : env.fetch = .error e) :
    analyze_call env (some dd) =
      ⟨.err ("File download failed: ".data ++ e) 500,
       [Act.fetchFile,
        Act.errorWrite ((jGetLast dd "sheet_name".data).getD J.jnull)
          ((jGetLast dd "row_number".data).getD J.jnull) 15
          ("ERROR: ".data ++ ("File download failed: ".data ++ e))
          (exOk env.errWrite)],
       [], []⟩ := by
  have hsn := hasKey_of_firstMissing_none dd hreq "sheet_name".data (by decide)
  have hrn := hasKey_of_firstMissing_none dd hreq "row_number".data (by decide)
  have hsi := hasKey_of_firstMissing_none dd hreq "sheet_id".data (by decide)
  simp [analyze_call, errHandler, hne, ht, hreq, hf, hsn, hrn, hsi]

/-- Helper: the error handler passes the created-files list through. -/
theorem errHandler_created (env : Env) (d : Option Obj) (col : Nat) (msg : Str)
    (tr : List Act) (c cl : List Str) :
    (errHandler env d col msg tr c cl).created = c := by
  unfold errHandler
  rcases d with _ | dd
  · rfl
  · dsimp only
    split
    · rfl
    · split <;> rfl

/-- Helper: the error handler passes the cleaned-files list through. -/
theorem errHandler_cleaned (env : Env) (d : Option Obj) (col : Nat) (msg : Str)
    (tr : List Act) (c cl : List Str) :
    (errHandler env d col msg tr c cl).cleaned = cl := by
  unfold errHandler
  rcases d with _ | dd
  · rfl
  · dsimp only
    split
    · rfl
    · split <;> rfl

/-- C5: on every exit path of either per-call endpoint — success, any
stage's fatal error, or a validation failure — every temporary file created
during the run (the downloaded stereo file, the two split mono files, the
transcript text file) is among the files whose deletion the `finally`-block
cleanup attempts before the response is returned. -/
theorem cleanup_covers_created (env : Env) (d : Option Obj) :
    (analyze_call env d).created ⊆ (analyze_call env d).cleaned ∧
    (analyze_faq env d).created ⊆ (analyze_faq env d).cleaned := by
  constructor <;>
  · first
    | unfold analyze_call
    | unfold analyze_faq
    dsimp only
    repeat' split
    all_goals simp only [errHandler_created, errHandler_cleaned]
    all_goals
      first
      | exact List.Subset.refl _
      | (intro x hx; simp only [List.mem_cons, List.not_mem_nil, or_false] at hx ⊢; tauto)

/-- The run outcome the amended C7 predicts for the partial-write scenario:
workflow range written first and successfully, decision range attempted and
failed, then the best-effort error write overwriting the status cell. -/
def partialWriteExpected (dd : Obj) (mp3 atext link e : Str) : RunOut :=
  ⟨.err ("Enhanced sheet update failed: ".data ++ e) 500,
   [Act.fetchFile, Act.splitAudio, Act.transcribeChan (leftName mp3),
    Act.transcribeChan (rightName mp3), Act.reconstructDialogue,
    Act.extractAnalysis, Act.parseFields,
    Act.writeTxt (stripMp3 mp3 ++ "_enhanced_transcript.txt".data),
    Act.uploadTxt (stripMp3 mp3 ++ "_enhanced_transcript.txt".data),
    Act.sheetMeta,
    Act.workflowWrite ((jGetLast dd "sheet_name".data).getD J.jnull)
      ((jGetLast dd "row_number".data).getD J.jnull)
      (wfValuesOf (parse_enhanced_analysis atext).1 link) true,
    Act.decisionWrite ((jGetLast dd "sheet_name".data).getD J.jnull)
      ((jGetLast dd "row_number".data).getD J.jnull)
      (decValuesOf (parse_enhanced_analysis atext).2) false,
    Act.errorWrite ((jGetLast dd "sheet_name".data).getD J.jnull)
      ((jGetLast dd "row_number".data).getD J.jnull) 15
      ("ERROR: ".data ++ ("Enhanced sheet update failed: ".data ++ e)) true],
   [mp3, leftName mp3, rightName mp3, stripMp3 mp3 ++ "_enhanced_transcript.txt".data],
   [mp3, leftName mp3, rightName mp3, stripMp3 mp3 ++ "_enhanced_transcript.txt".data]⟩

/-- C7 (amended): the workflow and decision field groups are written as two
independent range updates with the workflow range (carrying the "Completed"
status in its last cell) written first; when the decision write fails after
the workflow write succeeded, nothing is rolled back — the workflow cells
keep their values (column 14, the transcript link, is written exactly once)
— the job reports failure, and the status cell's "Completed" is then
overwritten by the job's best-effort "ERROR: <message>" write when that
write succeeds. -/
theorem partial_write_amended (env : Env) (dd : Obj)
    (mp3 a1 a2 dtext atext link e : Str)
    (hne : dd.isEmpty = false) (ht : testFlag dd = false)
    (hreq : firstMissing dd = none)
    (hf : env.fetch = .ok mp3) (hsp : env.ffmpeg = .success)
    (htl : env.transcribeL = .ok a1) (htr : env.transcribeR = .ok a2)
    (hrc : env.recon = .ok dtext) (han : env.analysis = .ok atext)
    (htx : env.txtWrite = .ok ()) (hup : env.upload = .ok link)
    (hm : env.meta = .ok (some 22)) (hwf : env.wfWrite = .ok ())
    (hdw : env.decWrite = .error e) (her : env.errWrite = .ok ()) :
    analyze_call env (some dd) = partialWriteExpected dd mp3 atext link e ∧
    cellWrites 14 (partialWriteExpected dd mp3 atext link e).trace = [link] ∧
    finalCell 15 (partialWriteExpected dd mp3 atext link e).trace =
      some ("ERROR: ".data ++ ("Enhanced sheet update failed: ".data ++ e)) := by
  have hsn := hasKey_of_firstMissing_none dd hreq "sheet_name".data (by decide)
  have hrn := hasKey_of_firstMissing_none dd hreq "row_number".data (by decide)
  have hsi := hasKey_of_firstMissing_none dd hreq "sheet_id".data (by decide)
  refine ⟨?_, ?_, ?_⟩
  · simp [analyze_call, update_sheet_enhanced, errHandler, split_channels,
      partialWriteExpected, exOk, hne, ht, hreq, hf, hsp, htl, htr, hrc, han,
      htx, hup, hm, hwf, hdw, her, hsn, hrn, hsi]
  · rfl
  · rfl

/-- A fully populated request body for the concrete scenarios. -/
def ddDemo : Obj :=
  [("file_url".data, J.jstr "http://u".data), ("file_token".data, J.jstr "tok".data),
   ("sheet_id".data, J.jstr "SID".data), ("sheet_name".data, J.jstr "Calls".data),
   ("row_number".data, J.jnum ['7']), ("transcript_folder_id".data, J.jstr "FID".data),
   ("file_name".data, J.jstr "call.mp3".data)]

/-- Oracle environment for the partial-write scenario: every stage succeeds
except the decision range update; the error write succeeds. -/
def envPartial : Env :=
  ⟨.ok "/tmp/c.mp3".data, .success, .ok "a".data, .ok "p".data, .ok "d".data,
   .ok "x".data, .ok (), .ok "http://link".data, .ok (some 22), .ok (),
   .ok (), .error "boom".data, .ok (), .ok ()⟩

/-- Oracle environment whose retrieval fails (and whose error write also
fails, exercising the fire-and-forget behaviour). -/
def envFetchFail : Env :=
  ⟨.error "timeout".data, .success, .ok "a".data, .ok "p".data, .ok "d".data,
   .ok "x".data, .ok (), .ok "http://link".data, .ok (some 22), .ok (),
   .ok (), .ok (), .ok (), .error "denied".data⟩

/-- A request body holding only `test = true`. -/
def ddTest : Obj := [("test".data, J.jbool true)]

/-- Witness for C10: a body holding only `test = true` (in particular, none
of the otherwise-required job fields) short-circuits both endpoints. -/
theorem test_request_witness :
    analyze_call envFetchFail (some ddTest) =
      ⟨.testOk "Webhook is working".data, [], [], []⟩ ∧
    analyze_faq envFetchFail (some ddTest) =
      ⟨.testOk "FAQ webhook is working".data, [], [], []⟩ :=
  test_request_shortcircuit envFetchFail ddTest rfl rfl

/-- C7 counterexample: in the partial-write scenario (workflow range written
and retained — column 14 holds the link, written once; decision range
attempted and failed — column 16 never written) the job reports failure as
the claim says, but the row does not retain the "Completed" status: the
final status-cell value is the "ERROR: ..." marker written by the error
handler, not "Completed". -/
theorem partial_write_cex :
    (analyze_call envPartial (some ddDemo)).resp =
      .err "Enhanced sheet update failed: boom".data 500 ∧
    cellWrites 14 (analyze_call envPartial (some ddDemo)).trace = ["http://link".data] ∧
    cellWrites 16 (analyze_call envPartial (some ddDemo)).trace = [] ∧
    finalCell 15 (analyze_call envPartial (some ddDemo)).trace =
      some "ERROR: Enhanced sheet update failed: boom".data ∧
    finalCell 15 (analyze_call envPartial (some ddDemo)).trace ≠
      some "Completed".data :=
  ⟨rfl, rfl, rfl, rfl, by decide⟩

/-- Witness for the amended C7 at the concrete partial-write scenario. -/
theorem partial_write_witness :
    analyze_call envPartial (some ddDemo) =
      partialWriteExpected ddDemo "/tmp/c.mp3".data "x".data "http://link".data "boom".data ∧
    cellWrites 14 (partialWriteExpected ddDemo "/tmp/c.mp3".data "x".data
        "http://link".data "boom".data).trace = ["http://link".data] ∧
    finalCell 15 (partialWriteExpected ddDemo "/tmp/c.mp3".data "x".data
        "http://link".data "boom".data).trace =
      some ("ERROR: ".data ++ ("Enhanced sheet update failed: ".data ++ "boom".data)) :=
  partial_write_amended envPartial ddDemo "/tmp/c.mp3".data "a".data "p".data
    "d".data "x".data "http://link".data "boom".data
    rfl rfl rfl rfl rfl rfl rfl rfl rfl rfl rfl rfl rfl rfl rfl

/-- Witness for C4 at a concrete request and failing retrieval (with the
error write itself failing, which leaves the response unchanged). -/
theorem retrieval_failure_witness :
    analyze_call envFetchFail (some ddDemo) =
      ⟨.err ("File download failed: ".data ++ "timeout".data) 500,
       [Act.fetchFile,
        Act.errorWrite ((jGetLast ddDemo "sheet_name".data).getD J.jnull)
          ((jGetLast ddDemo "row_number".data).getD J.jnull) 15
          ("ERROR: ".data ++ ("File download failed: ".data ++ "timeout".data))
          (exOk envFetchFail.errWrite)],
       [], []⟩ :=
  retrieval_failure_contract envFetchFail ddDemo "timeout".data rfl rfl rfl rfl

/-- Witness for C5: the downloaded stereo file created in the concrete
partial-write run is among the files whose deletion is attempted. -/
theorem cleanup_covers_created_witness :
    "/tmp/c.mp3".data ∈ (analyze_call envPartial (some ddDemo)).cleaned ∧
    "/tmp/c.mp3".data ∈ (analyze_faq envPartial (some ddDemo)).cleaned :=
  ⟨(cleanup_covers_created envPartial (some ddDemo)).1 (by decide),
   (cleanup_covers_created envPartial (some ddDemo)).2 (by decide)⟩
